import Mathlib

/-!
# Verification of the playback subscription subsystem

Shallow embedding of the music-bot core (`src/music/queue.js`,
`src/music/track.js`, `src/music/subscription.js`) together with proofs of
the specification claims about it.  JavaScript arrays are modelled as Lean
lists of `Elem` values (with an explicit `jsUndefined` element for JS `undefined`
and `arr` for nested array values, since out-of-bounds writes create holes
and `enqueueFirst` inserts an array literal).  Fallible JS expressions
(property reads on `undefined`, `VoiceConnection.destroy` on a destroyed
connection) are embedded as `Except`-returning functions.
-/

set_option autoImplicit false

namespace MusicBot

/-- A JavaScript value as it can appear inside the queue's backing array:
`jsUndefined` is JS `undefined` (holes created by out-of-bounds writes read back
as `undefined`), `tr n` is a `Track` object identified by its object
identity `n`, and `arrOne x` is the one-element array value `[x]` (needed
because `Queue.enqueueFirst` inserts the array literal `[item]`; one-element
literals are the only array values the modelled code ever stores). -/
inductive Elem where
  | jsUndefined : Elem
  | tr : Nat → Elem
  | arrOne : Elem → Elem
deriving DecidableEq, Repr

/-- JS array read `a[i]`: out-of-bounds reads yield `undefined`. -/
def jsArrayGet (l : List Elem) (i : Nat) : Elem :=
  l.getD i .jsUndefined

/-- JS array write `a[i] = v`: in-bounds writes replace, writes at or past
the length extend the array, filling the gap with holes (which read back as
`undefined`). -/
def jsArraySet (l : List Elem) (i : Nat) (v : Elem) : List Elem :=
  if i < l.length then l.set i v
  else l ++ List.replicate (i - l.length) .jsUndefined ++ [v]

/-- JS `Array.prototype.splice(start, deleteCount, ...items)` restricted to
non-negative arguments (all call sites in the repository pass such):
returns the new array contents and the removed elements.  `start` is
clamped to the array length. -/
def jsSplice (l : List Elem) (start delCount : Nat) (items : List Elem) :
    List Elem × List Elem :=
  let s := min start l.length
  (l.take s ++ items ++ l.drop (s + delCount), (l.drop s).take delCount)

/-- The mutex-guarded queue of `src/music/queue.js`: its observable state is
the backing array `internal`.  (The mutex itself serialises access; the
operations below are the bodies that run while it is held.) -/
structure Queue where
  internal : List Elem
deriving DecidableEq, Repr

namespace Queue

/-- `queue.js` line 28: `enqueue(...items) { return this.internal.push(...items) }`
— appends and returns the new length. -/
def enqueue (q : Queue) (items : List Elem) : Queue × Nat :=
  (⟨q.internal ++ items⟩, (q.internal ++ items).length)

/-- `queue.js` line 72: `splice(start, deleteCount, ...items)` forwards to the
backing array's splice, spreading the collected rest parameter back out. -/
def splice (q : Queue) (start delCount : Nat) (items : List Elem) :
    Queue × List Elem :=
  let r := jsSplice q.internal start delCount items
  (⟨r.1⟩, r.2)

/-- `queue.js` line 32: `enqueueFirst(item) { this.splice(0, 0, [item]) }`.
The call passes the array literal `[item]` as ONE argument, so the rest
parameter of `splice` collects to `[[item]]` and the element actually
inserted at the front is the one-element array `[item]` — i.e. the value
`Elem.arrOne item` — not `item` itself. -/
def enqueueFirst (q : Queue) (item : Elem) : Queue :=
  (q.splice 0 0 [Elem.arrOne item]).1

/-- `queue.js` line 36: `swap(index1, index2)` via three raw array accesses
(no bounds validation). -/
def swap (q : Queue) (index1 index2 : Nat) : Queue :=
  let temporaryValue := jsArrayGet q.internal index1
  let l1 := jsArraySet q.internal index1 (jsArrayGet q.internal index2)
  ⟨jsArraySet l1 index2 temporaryValue⟩

/-- `queue.js` line 53: `length()`. -/
def length (q : Queue) : Nat :=
  q.internal.length

/-- `queue.js` line 80: `dequeue() { return this.internal.shift() }` —
`shift` on an empty array returns `undefined` and leaves it empty. -/
def dequeue (q : Queue) : Queue × Elem :=
  match q.internal with
  | [] => (⟨[]⟩, .jsUndefined)
  | x :: xs => (⟨xs⟩, x)

/-- `queue.js` line 84: `remove(index) { return this.internal.splice(index, 1) }`. -/
def remove (q : Queue) (index : Nat) : Queue × List Elem :=
  q.splice index 1 []

/-- `queue.js` line 88: `clear() { this.internal = [] }`. -/
def clear (_q : Queue) : Queue :=
  ⟨[]⟩

/-- `queue.js` line 24: `get(index)` — out-of-bounds reads yield `undefined`. -/
def get (q : Queue) (index : Nat) : Elem :=
  jsArrayGet q.internal index

end Queue

/-- A JavaScript runtime error value (the only kind the modelled code can
throw is a `TypeError` from a property read or method call on `undefined`,
plus the error `@discordjs/voice` throws when destroying an
already-destroyed connection). -/
inductive JSError where
  | typeError : String → JSError
  | alreadyDestroyed : JSError
deriving DecidableEq, Repr

/-- One search result / alternate video candidate as produced by
`searchYoutube` and stored in `alternate_youtube_videos` (`track.js`). -/
structure VideoInfo where
  youtube_url : String
  youtube_title : String
  durationTimestamp : String
deriving DecidableEq, Repr

/-- A message sent to the notification sink (`subscription.lastTextChannel`).
One constructor per `send` call site in the source; payloads record the
data interpolated into the message. -/
inductive SinkMsg where
  /-- `track.js` line 101: the Now Playing embed sent by `onStart`. -/
  | nowPlayingMsg : Option String → SinkMsg
  /-- `track.js` line 115: the message sent by `onFinish` (title, songs left). -/
  | finishedPlayingMsg : Option String → Nat → SinkMsg
  /-- `track.js` line 127: the message sent by `onError`. -/
  | ranIntoErrorMsg : SinkMsg
  /-- `track.js` line 149: no search results for a pending spotify track. -/
  | couldNotFindURLMsg : Option String → Option String → SinkMsg
  /-- `track.js` line 228: retrying with an alternate URL (title, attempts left). -/
  | retryAltMsg : Option String → Nat → SinkMsg
  /-- `track.js` line 235: no alternate URL found, retrying with the same one. -/
  | retrySameNoAltMsg : Option String → Nat → SinkMsg
  /-- `track.js` line 239: first/second failure, retrying with the same URL. -/
  | retrySameMsg : Option String → Nat → SinkMsg
  /-- `track.js` line 250: permanent failure after exhausting the attempts. -/
  | permanentFailMsg : Option String → SinkMsg
deriving DecidableEq, Repr

/-- The mutable fields of a `Track` object (`track.js` constructor, lines
29-45) that the modelled operations read or write.  JS fields that are
simply absent (`undefined`) are `none` / `false`.  `downloadFailed` is read
at `subscription.js` line 154 but never assigned anywhere in the
repository, so it is carried here as a field that no modelled operation
sets (a fresh Track has it `false`, i.e. `undefined`, which is falsy). -/
structure TrackState where
  id : Nat
  youtube_url : Option String
  youtube_title : Option String
  spotify_title : Option String
  spotify_main_author : Option String
  spotify_authors : Option (List String)
  spotify_image_url : Option String
  requestedBy : Option String
  durationTimestamp : Option String
  currentReplayAttempt : Nat
  alternate_youtube_videos : List VideoInfo
  started : Bool
  finished : Bool
  errored : Bool
  downloadFailed : Bool
deriving DecidableEq, Repr

/-- A Track as built by the constructor (`track.js` lines 29-45): lifecycle
flags unset, retry counter 0, no alternates. -/
def mkTrack (id : Nat) (youtube_url youtube_title spotify_title : Option String)
    (spotify_authors : Option (List String)) : TrackState :=
  { id := id
    youtube_url := youtube_url
    youtube_title := youtube_title
    spotify_title := spotify_title
    spotify_main_author := none
    spotify_authors := spotify_authors
    spotify_image_url := none
    requestedBy := none
    durationTimestamp := none
    currentReplayAttempt := 0
    alternate_youtube_videos := []
    started := false
    finished := false
    errored := false
    downloadFailed := false }

/-- JS string concatenation `str + s` where `str` may be `undefined`
(template interpolation renders `undefined` as the text "undefined"). -/
def jsStrConcat : Option String → String → Option String
  | none, s => some ("undefined" ++ s)
  | some a, s => some (a ++ s)

/-- `track.js` lines 47-55, `getSpotifyAuthorString(maxAuthorCount = 0)`:

    maxAuthorCount === 0 && (maxAuthorCount = this.spotify_authors.length)
    if (!this.spotify_authors) return null;
    let str = this.spotify_authors[0];
    for (let i = 1; i < maxAuthorCount; i++) str += ` ${this.spotify_authors[i]}`
    return str;

When `spotify_authors` is absent and the default argument 0 is used, the
`.length` read on the first line throws a `TypeError` BEFORE the null check
runs.  With a nonzero argument the first line short-circuits and the null
check returns `null` (here `.ok none`).  Out-of-range author reads
interpolate as "undefined", matching the JS template literal. -/
def getSpotifyAuthorString (t : TrackState) (maxAuthorCount : Nat) :
    Except JSError (Option String) :=
  match t.spotify_authors with
  | none =>
      if maxAuthorCount = 0 then
        .error (.typeError "Cannot read properties of undefined (reading length)")
      else
        .ok none
  | some authors =>
      let m := if maxAuthorCount = 0 then authors.length else maxAuthorCount
      .ok ((List.range' 1 (m - 1)).foldl
        (fun str i => jsStrConcat str (" " ++ authors.getD i "undefined"))
        authors[0]?)

/-- The resolution step at the top of `createAudioResource` (`track.js`
lines 144-163): when the track has no `youtube_url`, `searchYoutube` is
called with `author: this.getSpotifyAuthorString(2)` — the argument is
evaluated before the call, so the search is attempted exactly when that
evaluation does not throw.  When a `youtube_url` is present the function
goes to the else branch (the stream-spawn path) and no search happens. -/
structure ResolveStepResult where
  searchAttempted : Bool
  searchAuthorArg : Option String
  thrown : Option JSError
deriving DecidableEq, Repr

def createAudioResourceResolveStep (t : TrackState) : ResolveStepResult :=
  match t.youtube_url with
  | some _ => { searchAttempted := false, searchAuthorArg := none, thrown := none }
  | none =>
      match getSpotifyAuthorString t 2 with
      | .error e => { searchAttempted := false, searchAuthorArg := none, thrown := some e }
      | .ok author => { searchAttempted := true, searchAuthorArg := author, thrown := none }

/-- `track.js` lines 148-151: the notification built when `searchYoutube`
returns no results interpolates `this.getSpotifyAuthorString()` — the
default-argument call — so building the message itself throws when
`spotify_authors` is absent. -/
def noSearchResultsNotify (t : TrackState) : Except JSError SinkMsg :=
  match getSpotifyAuthorString t 0 with
  | .error e => .error e
  | .ok author => .ok (SinkMsg.couldNotFindURLMsg author t.spotify_title)

/-! ## Track lifecycle callbacks

The projection of a Track relevant to the one-shot callback discipline:
the three guard flags and a count of the observable sink effects each
callback has produced.  Events are the call sites that read or write the
flags. -/

structure LifecycleState where
  started : Bool
  finished : Bool
  errored : Bool
  startEffects : Nat
  finishEffects : Nat
  errorEffects : Nat
deriving DecidableEq, Repr

/-- The operations that touch the lifecycle flags: the three callbacks
(invoked by the engine-state observer in `subscription.js`) and
`createAudioResource` (invoked by `processQueue` and by the handler's
retry path). -/
inductive LifecycleEvent where
  | onStartCall
  | onFinishCall
  | onErrorCall
  | createAudioResourceCall
deriving DecidableEq, Repr

/-- One event applied to the lifecycle projection:
* `onStart` (`track.js` lines 60-65): if `started` return, else set it and
  send the Now Playing message;
* `onFinish` (lines 104-109): likewise with `finished`;
* `onError` (lines 118-123): likewise with `errored`;
* `createAudioResource` (lines 136-137): `this.finished = false;
  this.started = false;` — the flags are reset, `errored` is not. -/
def lifecycleStep (s : LifecycleState) : LifecycleEvent → LifecycleState
  | .onStartCall =>
      if s.started then s
      else { s with started := true, startEffects := s.startEffects + 1 }
  | .onFinishCall =>
      if s.finished then s
      else { s with finished := true, finishEffects := s.finishEffects + 1 }
  | .onErrorCall =>
      if s.errored then s
      else { s with errored := true, errorEffects := s.errorEffects + 1 }
  | .createAudioResourceCall =>
      { s with started := false, finished := false }

def lifecycleRun (s : LifecycleState) (events : List LifecycleEvent) : LifecycleState :=
  events.foldl lifecycleStep s

/-- A freshly constructed Track's lifecycle projection (all flags are
`undefined`, hence falsy; no effect has fired). -/
def initLifecycle : LifecycleState :=
  { started := false, finished := false, errored := false
    startEffects := 0, finishEffects := 0, errorEffects := 0 }

/-! ## Subscription state and the spawn-error handler -/

/-- The fields of a `MusicSubscription` the modelled operations touch,
plus two effect-recording fields: `skipCalled` records that
`subscription.skip()` (i.e. `audioPlayer.stop(true)`) was invoked, and
`processQueueTriggered` that a fresh `processQueue()` call was fired. -/
structure SubscriptionState where
  wait : Bool
  queue : Queue
  queueProcessLock : Bool
  skipCalled : Bool
  processQueueTriggered : Bool
deriving DecidableEq, Repr

/-- Classification of a spawn failure by the two `shortMessage` substring
tests the handler performs (`track.js` lines 194 and 202).  The premature
check runs first, so a message containing both substrings takes the
premature branch. -/
structure SpawnError where
  prematureClose : Bool
  exitCode1 : Bool
deriving DecidableEq, Repr

structure HandlerResult where
  track : TrackState
  sub : SubscriptionState
  notifications : List SinkMsg
  rejected : Bool
deriving DecidableEq, Repr

/-- `spawnErrorHandler` (`track.js` lines 186-256), straight-line transcription:
* line 194: `ERR_STREAM_PREMATURE_CLOSE` → log and return (no state change,
  no notification, and no `reject` — the early return skips line 255);
* lines 202-253: "exit code 1" → set `started`/`finished` (lines 205-208),
  increment the counter (line 210); while the counter is below 5 set
  `subscription.wait` (line 217), from counter ≥ 2 substitute the alternate
  at index `counter - 2` when it exists (lines 220-237), send the matching
  retry message, re-enqueue via `enqueueFirst(this)` under the queue lock
  (lines 243-245) and trigger `processQueue` (line 247); at counter 5 send
  the permanent-failure message and call `subscription.skip()` (lines
  250-251);
* any other failure only logs (line 197);
* line 255: every non-premature path ends in `reject(...)`. -/
def spawnErrorHandler (t : TrackState) (sub : SubscriptionState) (e : SpawnError) :
    HandlerResult :=
  if e.prematureClose then
    { track := t, sub := sub, notifications := [], rejected := false }
  else if e.exitCode1 then
    let t1 : TrackState :=
      { t with started := true, finished := true
               currentReplayAttempt := t.currentReplayAttempt + 1 }
    if t1.currentReplayAttempt < 5 then
      let sub1 : SubscriptionState := { sub with wait := true }
      let step : SinkMsg × TrackState :=
        if t1.currentReplayAttempt ≥ 2 then
          match t1.alternate_youtube_videos[t1.currentReplayAttempt - 2]? with
          | some alt =>
              (SinkMsg.retryAltMsg t1.youtube_title (4 - t1.currentReplayAttempt),
               { t1 with youtube_title := some alt.youtube_title
                         youtube_url := some alt.youtube_url
                         durationTimestamp := some alt.durationTimestamp })
          | none =>
              (SinkMsg.retrySameNoAltMsg t1.youtube_title (4 - t1.currentReplayAttempt), t1)
        else
          (SinkMsg.retrySameMsg t1.youtube_title (4 - t1.currentReplayAttempt), t1)
      { track := step.2
        sub := { sub1 with queue := sub1.queue.enqueueFirst (Elem.tr step.2.id)
                           processQueueTriggered := true }
        notifications := [step.1]
        rejected := true }
    else
      { track := t1
        sub := { sub with skipCalled := true }
        notifications := [SinkMsg.permanentFailMsg t1.youtube_title]
        rejected := true }
  else
    { track := t, sub := sub, notifications := [], rejected := true }

/-- `Track.onError` (`track.js` lines 118-128) as invoked from
`processQueue`'s catch block (`subscription.js` line 239): a no-op when the
Track has already errored, otherwise it records the flag and sends the
error message to the sink. -/
def runOnError (t : TrackState) : TrackState × List SinkMsg :=
  if t.errored then (t, [])
  else ({ t with errored := true }, [SinkMsg.ranIntoErrorMsg])

/-- `Track.onFinish` (`track.js` lines 104-116): a no-op when `finished` is
already set, otherwise it records the flag and sends the finished message
(carrying the remaining queue length). -/
def runOnFinish (t : TrackState) (queueLen : Nat) : TrackState × List SinkMsg :=
  if t.finished then (t, [])
  else ({ t with finished := true }, [SinkMsg.finishedPlayingMsg t.youtube_title queueLen])

/-- All sink notifications a spawn failure produces: those sent by the
handler itself plus — when the handler rejects the acquisition promise —
the one `onError` sends from `processQueue`'s catch block
(`subscription.js` lines 235-241). -/
def spawnFailureNotifications (t : TrackState) (sub : SubscriptionState)
    (e : SpawnError) : List SinkMsg :=
  let r := spawnErrorHandler t sub e
  r.notifications ++ (if r.rejected then (runOnError r.track).2 else [])

/-- Result of the engine-state observer's non-Idle → Idle branch. -/
structure IdleTransitionResult where
  onFinishInvoked : Bool
  track : TrackState
  notifications : List SinkMsg
  processQueueTriggered : Bool
deriving DecidableEq, Repr

/-- The non-Idle → Idle branch of the `audioPlayer` `stateChange` observer
(`subscription.js` lines 147-158): `onFinish` is invoked on the just-exited
resource's Track exactly when `!currentTrack.downloadFailed` (line 154),
and the queue is processed unless `wait` is set (line 158). -/
def idleTransitionHandler (t : TrackState) (sub : SubscriptionState) :
    IdleTransitionResult :=
  if t.downloadFailed then
    { onFinishInvoked := false, track := t, notifications := []
      processQueueTriggered := !sub.wait }
  else
    let r := runOnFinish t sub.queue.length
    { onFinishInvoked := true, track := r.1, notifications := r.2
      processQueueTriggered := !sub.wait }

/-! ## Audio player state and nowPlaying -/

inductive AudioPlayerStatus where
  | Idle
  | Buffering
  | Playing
  | Paused
  | AutoPaused
deriving DecidableEq, Repr

/-- The resource slot of the audio engine: `createAudioResource(probedStream,
{ metadata: this })` (`track.js` line 263) stores the Track as `metadata`. -/
structure AudioResource where
  metadata : TrackState
deriving DecidableEq, Repr

/-- The engine's state object: in the `Idle` state the object carries no
`resource` property (reading it yields `undefined`), in the other states it
holds the current resource. -/
structure AudioPlayerState where
  status : AudioPlayerStatus
  resource : Option AudioResource
deriving DecidableEq, Repr

/-- `MusicSubscription.nowPlaying` (`subscription.js` lines 203-205):
`return this.audioPlayer.state.resource.metadata;` — when the state holds
no resource, `state.resource` evaluates to `undefined` and the `.metadata`
read on it throws a `TypeError`. -/
def nowPlaying (state : AudioPlayerState) : Except JSError TrackState :=
  match state.resource with
  | some r => .ok r.metadata
  | none => .error (.typeError "Cannot read properties of undefined (reading metadata)")

/-! ## Subscription termination (stop) -/

inductive VCStatus where
  | Signalling
  | Connecting
  | Ready
  | Disconnected
  | Destroyed
deriving DecidableEq, Repr

/-- `VoiceConnection.destroy()` of the voice library: destroys the
connection, but throws when the connection is already destroyed (which is
why `subscription.js` guards every call with a status check). -/
def voiceConnectionDestroy (st : VCStatus) : Except JSError VCStatus :=
  if st = VCStatus.Destroyed then .error .alreadyDestroyed
  else .ok VCStatus.Destroyed

/-- The session-level state `stop` touches: the queue, the `destroyed`
flag, the connection status, whether the engine has been force-stopped,
and the Registry (`subscriptions` map, modelled as the list of guild ids
it contains) together with this session's guild id. -/
structure SessionState where
  queue : Queue
  destroyed : Bool
  connStatus : VCStatus
  playerStopped : Bool
  registry : List Nat
  guildId : Nat
deriving DecidableEq, Repr

/-- `MusicSubscription.stop` (`subscription.js` lines 192-201): acquire the
queue lock, `queue.clear()`, release the lock, `audioPlayer.stop(true)`,
set `destroyed`, destroy the voice connection only if its status is not
already `Destroyed`, and `subscriptions.delete(this.guildId)`.  The result
is `Except`-valued so that an unguarded double destroy would surface as an
error; the guard on line 198 is what keeps repeated invocations
error-free. -/
def MusicSubscription.stop (s : SessionState) : Except JSError SessionState := do
  let s1 : SessionState := { s with queue := s.queue.clear }
  let s2 : SessionState := { s1 with playerStopped := true, destroyed := true }
  let s3 : SessionState ←
    if s2.connStatus ≠ VCStatus.Destroyed then do
      let st ← voiceConnectionDestroy s2.connStatus
      pure { s2 with connStatus := st }
    else
      pure s2
  pure { s3 with registry := s3.registry.filter (fun g => g != s3.guildId) }

/-! ## The processQueue critical section -/

/-- The state shared by concurrent `processQueue` invocations
(`subscription.js` lines 210-228).  Between the resolution of
`await this.queue.acquireLock()` (line 213) and the matching `unlockQueue()`
(lines 218 / 228) the body is synchronous JavaScript — it contains no
`await` — so under the run-to-completion event loop each invocation's
guard-and-dequeue section executes atomically, in the order the mutex
grants the lock.  `startedInvocations` records the invocations that
dequeued a Track and went on to start a playback attempt;
`abortedInvocations` those that returned at the guard after releasing the
lock.  (The `this.wait = false` write on line 211 precedes the lock wait
and is not read by the guard, so it is omitted from this projection.) -/
structure PQState where
  queueProcessLock : Bool
  playerStatus : AudioPlayerStatus
  queue : Queue
  startedInvocations : List Nat
  abortedInvocations : List Nat
deriving DecidableEq, Repr

/-- One invocation's critical section (`subscription.js` lines 216-228):
abort when `queueProcessLock` is set, the engine is not `Idle`, or the
queue is empty; otherwise set `queueProcessLock`, dequeue the head, and
release the lock with a playback attempt under way. -/
def processQueueCritical (s : PQState) (inv : Nat) : PQState :=
  if s.queueProcessLock ∨ s.playerStatus ≠ AudioPlayerStatus.Idle ∨ s.queue.length = 0 then
    { s with abortedInvocations := s.abortedInvocations ++ [inv] }
  else
    { s with queueProcessLock := true
             queue := s.queue.dequeue.1
             startedInvocations := s.startedInvocations ++ [inv] }

/-- N interleaved invocations, identified by the elements of `invs`, run in
lock-grant order. -/
def runInvocations (s : PQState) (invs : List Nat) : PQState :=
  invs.foldl processQueueCritical s

/-! ## Queue operation sequences (length accounting) -/

/-- The queue operations named by the accounting claim. -/
inductive QOp where
  | enq : List Elem → QOp
  | deq : QOp
  | rem : Nat → QOp
  | swp : Nat → Nat → QOp
deriving DecidableEq, Repr

def applyOp (q : Queue) : QOp → Queue
  | .enq items => (q.enqueue items).1
  | .deq => q.dequeue.1
  | .rem i => (q.remove i).1
  | .swp i j => q.swap i j

def runOps (q : Queue) (ops : List QOp) : Queue :=
  ops.foldl applyOp q

/-- Elements inserted by one operation: `enqueue` inserts its arguments,
the others insert nothing. -/
def insertedCount : QOp → Nat
  | .enq items => items.length
  | _ => 0

/-- Elements actually removed by one operation applied to `q`: `dequeue`
removes the head when one exists, `remove i` removes one element when `i`
is in bounds (JS `splice` past the end removes nothing). -/
def removedCount (q : Queue) : QOp → Nat
  | .deq => if q.length = 0 then 0 else 1
  | .rem i => if i < q.length then 1 else 0
  | _ => 0

def totalInserted (ops : List QOp) : Nat :=
  (ops.map insertedCount).sum

def totalRemoved (q : Queue) : List QOp → Nat
  | [] => 0
  | op :: ops => removedCount q op + totalRemoved (applyOp q op) ops

/-- Decidable in-bounds test for a single operation: only `swp` is
restricted. -/
def opInBoundsB (q : Queue) : QOp → Bool
  | .swp i j => decide (i < q.length) && decide (j < q.length)
  | _ => true

/-- Both indices of every `swp` in the sequence are within bounds at the
moment the swap runs. -/
def swapsInBounds (q : Queue) : List QOp → Bool
  | [] => true
  | op :: ops => opInBoundsB q op && swapsInBounds (applyOp q op) ops

/-! # Theorems -/

/-! ## C1 — one-shot lifecycle callbacks -/

/-- Helper: an event other than `createAudioResource` preserves the
quantity `startEffects + (1 if the started flag is clear)`. -/
theorem lifecycleStep_start_measure (s : LifecycleState) (e : LifecycleEvent)
    (he : e ≠ LifecycleEvent.createAudioResourceCall) :
    (lifecycleStep s e).startEffects + (if (lifecycleStep s e).started then 0 else 1)
      = s.startEffects + (if s.started then 0 else 1) := by
  cases e with
  | onStartCall =>
      by_cases hs : s.started <;> simp [lifecycleStep, hs]
  | onFinishCall =>
      by_cases hs : s.finished <;> simp [lifecycleStep, hs]
  | onErrorCall =>
      by_cases hs : s.errored <;> simp [lifecycleStep, hs]
  | createAudioResourceCall => exact absurd rfl he

/-- Helper: over a run containing no `createAudioResource` call the start
measure is constant. -/
theorem lifecycleRun_start_measure (s : LifecycleState) (events : List LifecycleEvent)
    (h : LifecycleEvent.createAudioResourceCall ∉ events) :
    (lifecycleRun s events).startEffects
        + (if (lifecycleRun s events).started then 0 else 1)
      = s.startEffects + (if s.started then 0 else 1) := by
  induction events generalizing s with
  | nil => rfl
  | cons e es ih =>
      have he : e ≠ LifecycleEvent.createAudioResourceCall := by
        intro hc
        exact h (hc ▸ List.mem_cons_self e es)
      have hes : LifecycleEvent.createAudioResourceCall ∉ es := by
        intro hm
        exact h (List.mem_cons_of_mem e hm)
      calc (lifecycleRun (lifecycleStep s e) es).startEffects
              + (if (lifecycleRun (lifecycleStep s e) es).started then 0 else 1)
          = (lifecycleStep s e).startEffects
              + (if (lifecycleStep s e).started then 0 else 1) := ih _ hes
        _ = s.startEffects + (if s.started then 0 else 1) :=
            lifecycleStep_start_measure s e he

/-- Helper: the finish measure, likewise. -/
theorem lifecycleStep_finish_measure (s : LifecycleState) (e : LifecycleEvent)
    (he : e ≠ LifecycleEvent.createAudioResourceCall) :
    (lifecycleStep s e).finishEffects + (if (lifecycleStep s e).finished then 0 else 1)
      = s.finishEffects + (if s.finished then 0 else 1) := by
  cases e with
  | onStartCall =>
      by_cases hs : s.started <;> simp [lifecycleStep, hs]
  | onFinishCall =>
      by_cases hs : s.finished <;> simp [lifecycleStep, hs]
  | onErrorCall =>
      by_cases hs : s.errored <;> simp [lifecycleStep, hs]
  | createAudioResourceCall => exact absurd rfl he

theorem lifecycleRun_finish_measure (s : LifecycleState) (events : List LifecycleEvent)
    (h : LifecycleEvent.createAudioResourceCall ∉ events) :
    (lifecycleRun s events).finishEffects
        + (if (lifecycleRun s events).finished then 0 else 1)
      = s.finishEffects + (if s.finished then 0 else 1) := by
  induction events generalizing s with
  | nil => rfl
  | cons e es ih =>
      have he : e ≠ LifecycleEvent.createAudioResourceCall := by
        intro hc
        exact h (hc ▸ List.mem_cons_self e es)
      have hes : LifecycleEvent.createAudioResourceCall ∉ es := by
        intro hm
        exact h (List.mem_cons_of_mem e hm)
      calc (lifecycleRun (lifecycleStep s e) es).finishEffects
              + (if (lifecycleRun (lifecycleStep s e) es).finished then 0 else 1)
          = (lifecycleStep s e).finishEffects
              + (if (lifecycleStep s e).finished then 0 else 1) := ih _ hes
        _ = s.finishEffects + (if s.finished then 0 else 1) :=
            lifecycleStep_finish_measure s e he

/-- Helper: the error measure is constant over EVERY event — no event,
`createAudioResource` included, ever clears `errored`. -/
theorem lifecycleStep_error_measure (s : LifecycleState) (e : LifecycleEvent) :
    (lifecycleStep s e).errorEffects + (if (lifecycleStep s e).errored then 0 else 1)
      = s.errorEffects + (if s.errored then 0 else 1) := by
  cases e with
  | onStartCall =>
      by_cases hs : s.started <;> simp [lifecycleStep, hs]
  | onFinishCall =>
      by_cases hs : s.finished <;> simp [lifecycleStep, hs]
  | onErrorCall =>
      by_cases hs : s.errored <;> simp [lifecycleStep, hs]
  | createAudioResourceCall => simp [lifecycleStep]

theorem lifecycleRun_error_measure (s : LifecycleState) (events : List LifecycleEvent) :
    (lifecycleRun s events).errorEffects
        + (if (lifecycleRun s events).errored then 0 else 1)
      = s.errorEffects + (if s.errored then 0 else 1) := by
  induction events generalizing s with
  | nil => rfl
  | cons e es ih =>
      calc (lifecycleRun (lifecycleStep s e) es).errorEffects
              + (if (lifecycleRun (lifecycleStep s e) es).errored then 0 else 1)
          = (lifecycleStep s e).errorEffects
              + (if (lifecycleStep s e).errored then 0 else 1) := ih _
        _ = s.errorEffects + (if s.errored then 0 else 1) :=
            lifecycleStep_error_measure s e

/-- C1 counterexample: the claim that each callback's side effect fires at
most once over the whole Track lifetime, for every event sequence including
repeated `createAudioResource` calls, is false — `createAudioResource`
resets the `started` and `finished` flags (`track.js` lines 136-137), so
the sequence createAudioResource; onStart; createAudioResource; onStart
(exactly the shape of a retried acquisition whose first attempt reached the
Playing state) sends the Now Playing effect twice from a fresh Track. -/
theorem C1_counterexample :
    (lifecycleRun initLifecycle
      [LifecycleEvent.createAudioResourceCall, LifecycleEvent.onStartCall,
       LifecycleEvent.createAudioResourceCall, LifecycleEvent.onStartCall]).startEffects
      = 2 ∧
    ¬ (lifecycleRun initLifecycle
      [LifecycleEvent.createAudioResourceCall, LifecycleEvent.onStartCall,
       LifecycleEvent.createAudioResourceCall, LifecycleEvent.onStartCall]).startEffects
      ≤ 1 := by
  decide

/-- C1 (amended): within any span of a Track's lifetime containing no
`createAudioResource` call, `onStart` and `onFinish` each execute their
observable side effect at most once, however many times the engine
re-enters the corresponding state; `onError` executes its side effect at
most once over the whole lifetime, across arbitrary event sequences,
because no operation ever clears the `errored` flag (while
`createAudioResource` does reset `started` and `finished`, allowing one
more fire per acquisition cycle). -/
theorem C1_amended (s : LifecycleState) (events : List LifecycleEvent)
    (h : LifecycleEvent.createAudioResourceCall ∉ events) :
    (lifecycleRun s events).startEffects ≤ s.startEffects + 1 ∧
    (lifecycleRun s events).finishEffects ≤ s.finishEffects + 1 ∧
    ∀ events2 : List LifecycleEvent,
      (lifecycleRun s events2).errorEffects ≤ s.errorEffects + 1 := by
  refine ⟨?_, ?_, ?_⟩
  · have hm := lifecycleRun_start_measure s events h
    split_ifs at hm <;> omega
  · have hm := lifecycleRun_finish_measure s events h
    split_ifs at hm <;> omega
  · intro events2
    have hm := lifecycleRun_error_measure s events2
    split_ifs at hm <;> omega

/-- C1 witness: the amended theorem applied to a fresh Track and the
sequence onStart; onStart; onFinish; onError; onError. -/
theorem C1_amended_witness :
    (lifecycleRun initLifecycle
      [LifecycleEvent.onStartCall, LifecycleEvent.onStartCall,
       LifecycleEvent.onFinishCall, LifecycleEvent.onErrorCall,
       LifecycleEvent.onErrorCall]).startEffects ≤ initLifecycle.startEffects + 1 ∧
    (lifecycleRun initLifecycle
      [LifecycleEvent.onStartCall, LifecycleEvent.onStartCall,
       LifecycleEvent.onFinishCall, LifecycleEvent.onErrorCall,
       LifecycleEvent.onErrorCall]).finishEffects ≤ initLifecycle.finishEffects + 1 ∧
    ∀ events2 : List LifecycleEvent,
      (lifecycleRun initLifecycle events2).errorEffects
        ≤ initLifecycle.errorEffects + 1 :=
  C1_amended initLifecycle
    [LifecycleEvent.onStartCall, LifecycleEvent.onStartCall,
     LifecycleEvent.onFinishCall, LifecycleEvent.onErrorCall,
     LifecycleEvent.onErrorCall] (by decide)

/-! ## Concrete states used by the remaining claims -/

/-- A resolved Track at its first acquisition attempt. -/
def trackA : TrackState := mkTrack 7 (some "urlA") (some "TitleA") none none

/-- A resolved Track whose retry counter already stands at 4 (the next
failure is the fifth attempt). -/
def trackB : TrackState :=
  { mkTrack 7 (some "urlA") (some "TitleA") none none with currentReplayAttempt := 4 }

/-- A Track that has already fired `onError` once. -/
def trackErrored : TrackState :=
  { mkTrack 7 (some "urlA") (some "TitleA") none none with errored := true }

/-- A pending playlist Track: no resolved source yet and, because the
playlist importer maps an empty artist list to `undefined`
(`authors: item.track.artists.length > 0 ? item.track.artists : undefined`),
no author list. -/
def pendingPlaylistTrack : TrackState := mkTrack 3 none none (some "SongS") none

/-- A subscription at rest: empty queue, no flags set. -/
def subIdle : SubscriptionState :=
  { wait := false, queue := ⟨[]⟩, queueProcessLock := false
    skipCalled := false, processQueueTriggered := false }

def errExit1 : SpawnError := { prematureClose := false, exitCode1 := true }

/-- An alternate search result retained for trackC. -/
def vidAlt : VideoInfo :=
  { youtube_url := "altUrl", youtube_title := "altTitle", durationTimestamp := "3:00" }

/-- A resolved Track about to incur its second failure (counter 1), holding
one unused alternate candidate. -/
def trackC : TrackState :=
  { mkTrack 8 (some "urlC") (some "TitleC") none none with
      currentReplayAttempt := 1, alternate_youtube_videos := [vidAlt] }

def errPremature : SpawnError := { prematureClose := true, exitCode1 := false }

def errGeneric : SpawnError := { prematureClose := false, exitCode1 := false }

/-! ## C2 — the exit-code-1 retry path -/

/-- C2: evaluation of the code at the failing input.  A Track failing with
"exit code 1" at counter 0 does get its counter incremented, auto-advance
suppressed (`wait`), and a fresh queue-processing attempt triggered — but
the entry placed at the front of the queue is the one-element array
`[track]`, not the Track itself: `enqueueFirst` passes the array literal
`[item]` as a single argument to `splice(start, deleteCount, ...items)`,
so the spread re-expands to `internal.splice(0, 0, [item])` and the
wrapper array is what gets inserted (`queue.js` lines 32-34), contradicting
the comment above `spawnErrorHandler` ("re-queues this track again at the
beginning of the queue", `track.js` lines 182-184).  The dequeued wrapper
has no `createAudioResource` or `onError` method, so the promised retry
cannot actually replay the Track. -/
theorem C2_code_eval :
    (spawnErrorHandler trackA subIdle errExit1).track.currentReplayAttempt = 1 ∧
    (spawnErrorHandler trackA subIdle errExit1).sub.wait = true ∧
    (spawnErrorHandler trackA subIdle errExit1).sub.processQueueTriggered = true ∧
    (spawnErrorHandler trackA subIdle errExit1).sub.queue.internal
      = [Elem.arrOne (Elem.tr 7)] ∧
    (spawnErrorHandler trackA subIdle errExit1).sub.queue.internal
      ≠ [Elem.tr 7] ∧
    (spawnErrorHandler trackC subIdle errExit1).track.currentReplayAttempt = 2 ∧
    (spawnErrorHandler trackC subIdle errExit1).track.youtube_url = some "altUrl" ∧
    (spawnErrorHandler trackC subIdle errExit1).track.youtube_title = some "altTitle" ∧
    (spawnErrorHandler trackC subIdle errExit1).notifications
      = [SinkMsg.retryAltMsg (some "TitleC") 2] ∧
    (spawnErrorHandler trackB subIdle errExit1).notifications
      = [SinkMsg.permanentFailMsg (some "TitleA")] ∧
    (spawnErrorHandler trackB subIdle errExit1).sub.skipCalled = true ∧
    (spawnErrorHandler trackB subIdle errExit1).sub.queue.internal = [] := by
  decide

/-! ## C4 — onFinish suppression after a download failure -/

/-- C4: evaluation of the code at the failing input.  After a Track fails
its spawn with exit code 1, `downloadFailed` is still `false` — it is never
assigned anywhere in the repository — so on the next non-Idle → Idle engine
transition the guard `!currentTrack.downloadFailed` passes and `onFinish()`
IS invoked on the failed Track; the observable effect stays suppressed only
because `spawnErrorHandler` set the `finished` flag, not because a download
failure was recorded.  This contradicts the comment at `subscription.js`
line 151 ("downloadFailed is set to true"). -/
theorem C4_code_eval :
    (spawnErrorHandler trackA subIdle errExit1).track.downloadFailed = false ∧
    (idleTransitionHandler (spawnErrorHandler trackA subIdle errExit1).track
        (spawnErrorHandler trackA subIdle errExit1).sub).onFinishInvoked = true ∧
    (idleTransitionHandler (spawnErrorHandler trackA subIdle errExit1).track
        (spawnErrorHandler trackA subIdle errExit1).sub).notifications = [] ∧
    (idleTransitionHandler (spawnErrorHandler trackA subIdle errExit1).track
        (spawnErrorHandler trackA subIdle errExit1).sub).processQueueTriggered
      = false := by
  decide

/-! ## C5 — nowPlaying on an idle engine -/

def idleEngineState : AudioPlayerState :=
  { status := AudioPlayerStatus.Idle, resource := none }

/-- C5 counterexample: when the engine is Idle and holds no resource,
`nowPlaying()` does not return an absent value — evaluating
`this.audioPlayer.state.resource.metadata` reads `.metadata` off
`undefined` and throws a `TypeError`. -/
theorem C5_counterexample :
    (nowPlaying idleEngineState).isOk = false ∧
    nowPlaying idleEngineState =
      Except.error
        (JSError.typeError "Cannot read properties of undefined (reading metadata)") :=
  ⟨rfl, rfl⟩

/-- C5 (amended): `nowPlaying()` returns the current Track (the resource's
metadata) whenever the engine's state holds a resource, and throws a
`TypeError` — rather than returning an absent value — when the engine is
Idle and holds no resource. -/
theorem C5_amended :
    (∀ (st : AudioPlayerStatus) (r : AudioResource),
        nowPlaying { status := st, resource := some r } = Except.ok r.metadata) ∧
    ∀ st : AudioPlayerStatus,
      nowPlaying { status := st, resource := none } =
        Except.error
          (JSError.typeError "Cannot read properties of undefined (reading metadata)") :=
  ⟨fun _ _ => rfl, fun _ => rfl⟩

/-! ## C6 — silent failure paths -/

/-- C6 counterexample: the premature-close path is NOT the only error path
that produces no sink notification.  A generic spawn failure (neither
premature-close nor exit code 1) of a Track that has already errored — a
state reached, e.g., when an earlier exit-code-1 failure of the same Track
was rejected into `processQueue`'s catch and fired `onError` — sends
nothing: the handler only logs and rejects (`track.js` lines 197, 255), and
the catch-side `onError` is a no-op on an errored Track. -/
theorem C6_counterexample :
    errGeneric.prematureClose = false ∧
    trackErrored.errored = true ∧
    spawnFailureNotifications trackErrored subIdle errGeneric = [] := by
  decide

/-- C6 (amended): a premature-stream-close spawn failure aborts silently —
the Track and subscription are left untouched (no retry-counter increment,
no re-enqueue), no sink notification is sent, and the acquisition promise
is not even rejected.  Every other spawn failure either sends a sink
notification from the handler itself (both exit-code-1 branches do) or
rejects the acquisition so that `processQueue`'s catch invokes the Track's
`onError` — which notifies the sink only when the Track has not already
errored, so a repeat generic failure of an already-errored Track is also
silent. -/
theorem C6_amended (t : TrackState) (sub : SubscriptionState) (e : SpawnError) :
    (e.prematureClose = true →
        spawnErrorHandler t sub e =
          { track := t, sub := sub, notifications := [], rejected := false }) ∧
    (e.prematureClose = false → e.exitCode1 = true →
        (spawnErrorHandler t sub e).notifications ≠ [] ∧
        (spawnErrorHandler t sub e).rejected = true) ∧
    (e.prematureClose = false → e.exitCode1 = false →
        (spawnErrorHandler t sub e).rejected = true ∧
        spawnFailureNotifications t sub e =
          (if t.errored then [] else [SinkMsg.ranIntoErrorMsg])) := by
  refine ⟨?_, ?_, ?_⟩
  · intro hp
    simp [spawnErrorHandler, hp]
  · intro hp hx
    simp only [spawnErrorHandler, hp, Bool.false_eq_true, if_false, hx, if_true]
    split
    · split
      · simp
      · simp
    · simp
  · intro hp hx
    simp only [spawnErrorHandler, spawnFailureNotifications, runOnError, hp, hx,
      Bool.false_eq_true, if_false, if_true]
    constructor
    · simp
    · by_cases ht : t.errored <;> simp [ht]

/-- C6 witness: the amended theorem applied at a fresh Track and the
premature-close error, with the branch hypothesis discharged. -/
theorem C6_amended_witness :
    spawnErrorHandler trackA subIdle errPremature =
      { track := trackA, sub := subIdle, notifications := [], rejected := false } :=
  (C6_amended trackA subIdle errPremature).1 rfl

/-! ## C3 — concurrent processQueue invocations -/

/-- The shared state when the engine is Idle, no processing attempt is in
flight, and the queue holds exactly one Track. -/
def pqInit (t : Elem) : PQState :=
  { queueProcessLock := false, playerStatus := AudioPlayerStatus.Idle
    queue := ⟨[t]⟩, startedInvocations := [], abortedInvocations := [] }

/-- Helper: once `queueProcessLock` is set, every further invocation aborts
at the guard (releasing the lock) and the rest of the state is untouched. -/
theorem runInvocations_locked (invs : List Nat) (s : PQState)
    (h : s.queueProcessLock = true) :
    runInvocations s invs =
      { s with abortedInvocations := s.abortedInvocations ++ invs } := by
  induction invs generalizing s with
  | nil => simp [runInvocations]
  | cons i is ih =>
      have hstep : processQueueCritical s i =
          { s with abortedInvocations := s.abortedInvocations ++ [i] } := by
        simp [processQueueCritical, h]
      have hrun : runInvocations s (i :: is)
          = runInvocations { s with abortedInvocations := s.abortedInvocations ++ [i] } is := by
        show runInvocations (processQueueCritical s i) is = _
        rw [hstep]
      rw [hrun, ih { s with abortedInvocations := s.abortedInvocations ++ [i] } h]
      simp

/-- C3: with the engine Idle and exactly one Track queued, however many
`processQueue` invocations are interleaved (each one's guard-and-dequeue
section runs atomically in lock-grant order, since `subscription.js` lines
213-228 contain no suspension point between acquiring and releasing the
queue lock), the first invocation to obtain the lock dequeues the Track and
starts the playback attempt, and every other invocation aborts at the
guard: the Track is never dequeued twice. -/
theorem C3_single_dequeue (invs : List Nat) (t : Elem) (h : invs ≠ []) :
    (runInvocations (pqInit t) invs).startedInvocations.length = 1 ∧
    (runInvocations (pqInit t) invs).abortedInvocations.length = invs.length - 1 ∧
    (runInvocations (pqInit t) invs).queue.internal = [] := by
  match invs with
  | [] => exact absurd rfl h
  | i :: is =>
      have hstep : runInvocations (pqInit t) (i :: is) =
          runInvocations
            { queueProcessLock := true, playerStatus := AudioPlayerStatus.Idle
              queue := ⟨[]⟩, startedInvocations := [i], abortedInvocations := [] }
            is := rfl
      rw [hstep, runInvocations_locked is _ rfl]
      simp

/-- C3 witness: three interleaved invocations over a one-Track queue. -/
theorem C3_single_dequeue_witness :
    (runInvocations (pqInit (Elem.tr 0)) [10, 11, 12]).startedInvocations.length = 1 ∧
    (runInvocations (pqInit (Elem.tr 0)) [10, 11, 12]).abortedInvocations.length
      = [10, 11, 12].length - 1 ∧
    (runInvocations (pqInit (Elem.tr 0)) [10, 11, 12]).queue.internal = [] :=
  C3_single_dequeue [10, 11, 12] (Elem.tr 0) (by decide)

/-! ## C7 — stop clears, destroys, deregisters, and is idempotent -/

/-- Helper: filtering a list twice by the same predicate equals filtering
once. -/
theorem filter_self_idem {α : Type} (p : α → Bool) (l : List α) :
    (l.filter p).filter p = l.filter p := by
  induction l with
  | nil => rfl
  | cons a l ih => by_cases h : p a <;> simp [List.filter_cons, h, ih]

/-- C7: `stop()` empties the queue, force-stops the engine, sets the
destroyed flag, leaves the voice connection destroyed (destroying it only
when it was not already destroyed, which is why no error is thrown), and
removes the session's guild from the Registry; and a second invocation
returns the same state again without error. -/
theorem C7_stop_idempotent (s : SessionState) :
    ∃ s1 : SessionState,
      MusicSubscription.stop s = Except.ok s1 ∧
      MusicSubscription.stop s1 = Except.ok s1 ∧
      s1.queue.internal = [] ∧
      s1.destroyed = true ∧
      s1.playerStopped = true ∧
      s1.connStatus = VCStatus.Destroyed ∧
      s1.guildId ∉ s1.registry := by
  refine ⟨{ queue := ⟨[]⟩, destroyed := true, connStatus := VCStatus.Destroyed
            playerStopped := true
            registry := s.registry.filter (fun g => g != s.guildId)
            guildId := s.guildId }, ?_, ?_, rfl, rfl, rfl, rfl, ?_⟩
  · by_cases hc : s.connStatus = VCStatus.Destroyed <;>
      simp [MusicSubscription.stop, voiceConnectionDestroy, Queue.clear, hc,
        pure, Except.pure, bind, Except.bind]
  · simp [MusicSubscription.stop, voiceConnectionDestroy, Queue.clear,
      filter_self_idem, pure, Except.pure, bind, Except.bind]
  · simp [List.mem_filter]

/-- C7 witness: the theorem applied at a concrete live session. -/
theorem C7_stop_idempotent_witness :
    ∃ s1 : SessionState,
      MusicSubscription.stop
          { queue := ⟨[Elem.tr 1]⟩, destroyed := false, connStatus := VCStatus.Ready
            playerStopped := false, registry := [3, 9], guildId := 9 }
        = Except.ok s1 ∧
      MusicSubscription.stop s1 = Except.ok s1 ∧
      s1.queue.internal = [] ∧
      s1.destroyed = true ∧
      s1.playerStopped = true ∧
      s1.connStatus = VCStatus.Destroyed ∧
      s1.guildId ∉ s1.registry :=
  C7_stop_idempotent
    { queue := ⟨[Elem.tr 1]⟩, destroyed := false, connStatus := VCStatus.Ready
      playerStopped := false, registry := [3, 9], guildId := 9 }

/-! ## C8 — queue length accounting -/

/-- In-bounds side condition: only `swp` requires one (the other operations
account correctly unconditionally: an out-of-range `remove` removes nothing
and an empty `dequeue` removes nothing). -/
def opInBounds (q : Queue) : QOp → Prop
  | .swp i j => i < q.length ∧ j < q.length
  | _ => True

/-- Helper: the length/insertion/removal accounting of a single operation. -/
theorem applyOp_length (q : Queue) (op : QOp) (h : opInBounds q op) :
    (applyOp q op).length + removedCount q op = q.length + insertedCount op := by
  cases op with
  | enq items =>
      simp [applyOp, Queue.enqueue, Queue.length, removedCount, insertedCount]
  | deq =>
      rcases q with ⟨l⟩
      cases l with
      | nil => simp [applyOp, Queue.dequeue, Queue.length, removedCount, insertedCount]
      | cons x xs =>
          simp [applyOp, Queue.dequeue, Queue.length, removedCount, insertedCount]
  | rem i =>
      rcases q with ⟨l⟩
      have happ : applyOp ⟨l⟩ (QOp.rem i)
          = ⟨l.take (min i l.length) ++ [] ++ l.drop (min i l.length + 1)⟩ := rfl
      rcases Nat.lt_or_ge i l.length with hi | hi
      · have hmin : min i l.length = i := Nat.min_eq_left (Nat.le_of_lt hi)
        have hrc : removedCount ⟨l⟩ (QOp.rem i) = 1 := by
          simp [removedCount, Queue.length, hi]
        rw [happ, hrc]
        simp only [Queue.length, List.length_append, List.length_take,
          List.length_drop, List.length_nil, hmin, insertedCount]
        omega
      · have hmin : min i l.length = l.length := Nat.min_eq_right hi
        have hrc : removedCount ⟨l⟩ (QOp.rem i) = 0 := by
          simp [removedCount, Queue.length, Nat.not_lt.mpr hi]
        rw [happ, hrc]
        simp only [Queue.length, List.length_append, List.length_take,
          List.length_drop, List.length_nil, hmin, Nat.min_self, insertedCount]
        omega
  | swp i j =>
      obtain ⟨hi, hj⟩ := h
      rcases q with ⟨l⟩
      simp only [Queue.length] at hi hj
      have h1 : jsArraySet l i (jsArrayGet l j) = l.set i (jsArrayGet l j) := by
        simp [jsArraySet, hi]
      have hlen1 : (l.set i (jsArrayGet l j)).length = l.length :=
        List.length_set l i _
      have h2 : jsArraySet (l.set i (jsArrayGet l j)) j (jsArrayGet l i)
          = (l.set i (jsArrayGet l j)).set j (jsArrayGet l i) := by
        simp [jsArraySet, hlen1, hj]
      simp [applyOp, Queue.swap, Queue.length, removedCount, insertedCount,
        h1, h2, List.length_set]

/-- C8 counterexample: the claimed accounting is violated by an
out-of-bounds swap — on the one-element queue `[tr 0]` the single operation
`swap(0, 1)` inserts nothing and removes nothing, yet the length becomes 2
(the JS write `internal[1] = internal[0]` enlarges the array, see C9). -/
theorem C8_counterexample :
    totalInserted [QOp.swp 0 1] = 0 ∧
    totalRemoved ⟨[Elem.tr 0]⟩ [QOp.swp 0 1] = 0 ∧
    (runOps ⟨[Elem.tr 0]⟩ [QOp.swp 0 1]).length = 2 ∧
    (runOps ⟨[Elem.tr 0]⟩ [QOp.swp 0 1]).length ≠
      Queue.length ⟨[Elem.tr 0]⟩ + totalInserted [QOp.swp 0 1]
        - totalRemoved ⟨[Elem.tr 0]⟩ [QOp.swp 0 1] := by
  decide

/-- C8 (amended): for every sequence of enqueue/dequeue/remove/swap
operations in which every swap's two indices are within bounds at the
moment it runs, the resulting length equals the initial length plus the
number of elements inserted minus the number actually removed (an
out-of-range `remove` and a `dequeue` on an empty queue remove nothing;
an out-of-bounds `swap`, however, silently changes the length — see C9 —
which is why the bounds restriction is necessary). -/
theorem C8_amended (ops : List QOp) (q : Queue) (h : swapsInBounds q ops = true) :
    (runOps q ops).length + totalRemoved q ops = q.length + totalInserted ops := by
  induction ops generalizing q with
  | nil => simp [runOps, totalRemoved, totalInserted]
  | cons op ops ih =>
      rw [swapsInBounds, Bool.and_eq_true] at h
      have hop : (applyOp q op).length + removedCount q op
          = q.length + insertedCount op := by
        apply applyOp_length
        have hb := h.1
        cases op with
        | swp i j =>
            simp only [opInBoundsB, Bool.and_eq_true, decide_eq_true_eq] at hb
            exact hb
        | enq items => exact True.intro
        | deq => exact True.intro
        | rem i => exact True.intro
      have hrest := ih (applyOp q op) h.2
      have hrun : runOps q (op :: ops) = runOps (applyOp q op) ops := rfl
      have htot : totalRemoved q (op :: ops)
          = removedCount q op + totalRemoved (applyOp q op) ops := rfl
      have hins : totalInserted (op :: ops)
          = insertedCount op + totalInserted ops := by
        simp [totalInserted]
      rw [hrun, htot, hins]
      omega

/-- C8 witness: the amended accounting on a concrete in-bounds sequence. -/
theorem C8_amended_witness :
    (runOps ⟨[Elem.tr 1, Elem.tr 2]⟩
        [QOp.enq [Elem.tr 3], QOp.swp 0 2, QOp.deq, QOp.rem 9]).length
      + totalRemoved ⟨[Elem.tr 1, Elem.tr 2]⟩
          [QOp.enq [Elem.tr 3], QOp.swp 0 2, QOp.deq, QOp.rem 9]
    = Queue.length ⟨[Elem.tr 1, Elem.tr 2]⟩
      + totalInserted [QOp.enq [Elem.tr 3], QOp.swp 0 2, QOp.deq, QOp.rem 9] :=
  C8_amended [QOp.enq [Elem.tr 3], QOp.swp 0 2, QOp.deq, QOp.rem 9]
    ⟨[Elem.tr 1, Elem.tr 2]⟩ (by decide)

/-! ## C9 — out-of-bounds swap silently enlarges the queue -/

/-- C9: for a queue of length `n` and indices `i < n ≤ j`, `swap(i, j)`
neither rejects nor leaves the queue unchanged: the read `internal[j]`
yields `undefined`, so `internal[i]` is overwritten with an undefined
entry; the write `internal[j] = temporaryValue` stores the former element
of index `i` at index `j`, extending the array with undefined holes so
that the length becomes `j + 1`. -/
theorem C9_swap_out_of_bounds (q : Queue) (i j : Nat)
    (h1 : i < q.length) (h2 : q.length ≤ j) :
    (q.swap i j).length = j + 1 ∧
    (q.swap i j).get i = Elem.jsUndefined ∧
    (q.swap i j).get j = q.get i ∧
    q.swap i j ≠ q := by
  rcases q with ⟨l⟩
  simp only [Queue.length] at h1 h2
  have hgj : jsArrayGet l j = Elem.jsUndefined := List.getD_eq_default l Elem.jsUndefined h2
  have hset1 : jsArraySet l i (jsArrayGet l j) = l.set i Elem.jsUndefined := by
    rw [hgj]
    simp [jsArraySet, h1]
  have hlen1 : (l.set i Elem.jsUndefined).length = l.length := by simp
  have hnotlt : ¬ j < (l.set i Elem.jsUndefined).length := by
    rw [hlen1]
    omega
  have hnot2 : ¬ j < l.length := by omega
  have hset2 : jsArraySet (l.set i Elem.jsUndefined) j (jsArrayGet l i)
      = l.set i Elem.jsUndefined ++ List.replicate (j - l.length) Elem.jsUndefined
          ++ [jsArrayGet l i] := by
    simp only [jsArraySet, hlen1, hnot2, if_false]
  have hswap : (Queue.swap ⟨l⟩ i j).internal
      = l.set i Elem.jsUndefined ++ List.replicate (j - l.length) Elem.jsUndefined
          ++ [jsArrayGet l i] := by
    show jsArraySet (jsArraySet l i (jsArrayGet l j)) j (jsArrayGet l i) = _
    rw [hset1, hset2]
  have hlenAB :
      (l.set i Elem.jsUndefined ++ List.replicate (j - l.length) Elem.jsUndefined).length = j := by
    simp only [List.length_append, List.length_set, List.length_replicate]
    omega
  refine ⟨?_, ?_, ?_, ?_⟩
  · show (Queue.swap ⟨l⟩ i j).internal.length = j + 1
    rw [hswap]
    simp only [List.length_append, List.length_set, List.length_replicate,
      List.length_singleton]
    omega
  · show jsArrayGet (Queue.swap ⟨l⟩ i j).internal i = Elem.jsUndefined
    have hiA : i < (l.set i Elem.jsUndefined).length := by
      rw [hlen1]
      exact h1
    have hiAB :
        i < (l.set i Elem.jsUndefined ++ List.replicate (j - l.length) Elem.jsUndefined).length := by
      rw [hlenAB]
      omega
    rw [hswap, jsArrayGet, List.getD_append _ _ _ _ hiAB,
      List.getD_append _ _ _ _ hiA, List.getD_eq_getElem _ _ hiA]
    simp
  · show jsArrayGet (Queue.swap ⟨l⟩ i j).internal j = jsArrayGet l i
    have hj' :
        (l.set i Elem.jsUndefined ++ List.replicate (j - l.length) Elem.jsUndefined).length ≤ j := by
      rw [hlenAB]
    rw [hswap, jsArrayGet, List.getD_append_right _ _ _ _ hj', hlenAB, Nat.sub_self]
    rfl
  · intro heq
    have hlenEq : (Queue.swap ⟨l⟩ i j).internal.length = l.length := by rw [heq]
    rw [hswap] at hlenEq
    simp only [List.length_append, List.length_set, List.length_replicate,
      List.length_singleton] at hlenEq
    omega

/-- C9 witness: the one-element queue `[tr 5]` swapped at indices (0, 2). -/
theorem C9_swap_out_of_bounds_witness :
    (Queue.swap ⟨[Elem.tr 5]⟩ 0 2).length = 2 + 1 ∧
    (Queue.swap ⟨[Elem.tr 5]⟩ 0 2).get 0 = Elem.jsUndefined ∧
    (Queue.swap ⟨[Elem.tr 5]⟩ 0 2).get 2 = Queue.get ⟨[Elem.tr 5]⟩ 0 ∧
    Queue.swap ⟨[Elem.tr 5]⟩ 0 2 ≠ ⟨[Elem.tr 5]⟩ :=
  C9_swap_out_of_bounds ⟨[Elem.tr 5]⟩ 0 2 (by decide) (by decide)

/-! ## C10 — getSpotifyAuthorString on an absent author list -/

/-- C10 counterexample: the claim's premise holds — with the default
argument (`maxAuthorCount = 0`) and `spotify_authors` absent the call
throws a `TypeError`, because `this.spotify_authors.length` is read before
the null check — but its claimed consequence is false: resolving a pending
playlist Track with an absent author list does NOT fail before the catalog
search, because `createAudioResource` calls
`this.getSpotifyAuthorString(2)` (`track.js` line 146), and with a nonzero
argument the length read is short-circuited and the call returns `null`,
so the search IS attempted (with a null author hint) and nothing is
thrown. -/
theorem C10_counterexample :
    (getSpotifyAuthorString pendingPlaylistTrack 0).isOk = false ∧
    (createAudioResourceResolveStep pendingPlaylistTrack).searchAttempted = true ∧
    (createAudioResourceResolveStep pendingPlaylistTrack).searchAuthorArg = none ∧
    (createAudioResourceResolveStep pendingPlaylistTrack).thrown = none := by
  decide

/-- C10 (amended): for a Track whose `spotify_authors` is absent,
`getSpotifyAuthorString` with the default argument (0) throws a
`TypeError` (the `.length` read precedes the null check), while the
`maxAuthorCount = 2` call made by `createAudioResource` returns `null`;
hence resolving such a pending Track does attempt the catalog search with
a null author hint, and the TypeError surfaces only in the
no-search-results notification path, which interpolates the
default-argument call `this.getSpotifyAuthorString()`. -/
theorem C10_amended (t : TrackState) (h1 : t.spotify_authors = none)
    (h2 : t.youtube_url = none) :
    getSpotifyAuthorString t 0 =
      Except.error
        (JSError.typeError "Cannot read properties of undefined (reading length)") ∧
    getSpotifyAuthorString t 2 = Except.ok none ∧
    (createAudioResourceResolveStep t).searchAttempted = true ∧
    (createAudioResourceResolveStep t).searchAuthorArg = none ∧
    (noSearchResultsNotify t).isOk = false := by
  refine ⟨?_, ?_, ?_, ?_, ?_⟩ <;>
    simp [getSpotifyAuthorString, createAudioResourceResolveStep,
      noSearchResultsNotify, Except.isOk, Except.toBool, h1, h2]

/-- C10 witness: the amended theorem applied to the concrete pending
playlist Track. -/
theorem C10_amended_witness :
    getSpotifyAuthorString pendingPlaylistTrack 0 =
      Except.error
        (JSError.typeError "Cannot read properties of undefined (reading length)") ∧
    getSpotifyAuthorString pendingPlaylistTrack 2 = Except.ok none ∧
    (createAudioResourceResolveStep pendingPlaylistTrack).searchAttempted = true ∧
    (createAudioResourceResolveStep pendingPlaylistTrack).searchAuthorArg = none ∧
    (noSearchResultsNotify pendingPlaylistTrack).isOk = false :=
  C10_amended pendingPlaylistTrack rfl rfl

end MusicBot
